import Mathlib

/-!
# Design tokens: the generated iOS header `build/ios/light_nykredit/tokens.h`

The repository is one generated Objective-C header: a flat table of `#define`
lines mapping design-token names to colour constructors, numbers and string
placeholders.  The header is embedded line by line, exactly as it is in the
source, and read by a small line reader that follows the C preprocessor's
notion of an object-like macro definition.  Every statement below is about
that text.
-/

namespace DesignTokens

/-! ## The source text -/

/-- The lines of `build/ios/light_nykredit/tokens.h`, in file order, one string
per line, without the line terminators. -/
def tokens_h : List String := [
  "",
  "//",
  "// tokens.h",
  "//",
  "",
  "// Do not edit directly, this file was auto-generated.",
  "",
  "",
  "#import <Foundation/Foundation.h>",
  "#import <UIKit/UIKit.h>",
  "",
  "#define BgBrandAccent [UIColor colorWithRed:0.408f green:0.820f blue:0.875f alpha:1.000f]",
  "#define BgBrandPrimary [UIColor colorWithRed:0.059f green:0.118f blue:0.502f alpha:1.000f]",
  "#define BgBrandSecondary [UIColor colorWithRed:0.408f green:0.820f blue:0.875f alpha:1.000f]",
  "#define BgDisabledPrimary [UIColor colorWithRed:0.965f green:0.961f blue:0.957f alpha:1.000f]",
  "#define BgDisabledSecondary [UIColor colorWithRed:0.157f green:0.137f blue:0.125f alpha:0.100f]",
  "#define BgFeedbackAlertPrimary [UIColor colorWithRed:0.569f green:0.071f blue:0.071f alpha:1.000f]",
  "#define BgFeedbackAlertSecondary [UIColor colorWithRed:0.953f green:0.286f blue:0.286f alpha:1.000f]",
  "#define BgFeedbackAlertTertiary [UIColor colorWithRed:0.996f green:0.906f blue:0.906f alpha:1.000f]",
  "#define BgFeedbackInfoPrimary [UIColor colorWithRed:0.106f green:0.267f blue:0.494f alpha:1.000f]",
  "#define BgFeedbackInfoSecondary [UIColor colorWithRed:0.278f green:0.545f blue:0.922f alpha:1.000f]",
  "#define BgFeedbackInfoTertiary [UIColor colorWithRed:0.871f green:0.922f blue:0.988f alpha:1.000f]",
  "#define BgFeedbackSuccessPrimary [UIColor colorWithRed:0.196f green:0.424f blue:0.267f alpha:1.000f]",
  "#define BgFeedbackSuccessSecondary [UIColor colorWithRed:0.325f green:0.835f blue:0.502f alpha:1.000f]",
  "#define BgFeedbackSuccessTertiary [UIColor colorWithRed:0.835f green:0.965f blue:0.882f alpha:1.000f]",
  "#define BgFeedbackWarningPrimary [UIColor colorWithRed:0.467f green:0.384f blue:0.051f alpha:1.000f]",
  "#define BgFeedbackWarningSecondary [UIColor colorWithRed:0.973f green:0.827f blue:0.188f alpha:1.000f]",
  "#define BgFeedbackWarningTertiary [UIColor colorWithRed:0.992f green:0.957f blue:0.769f alpha:1.000f]",
  "#define BgInverseDefault [UIColor colorWithRed:0.157f green:0.137f blue:0.125f alpha:1.000f]",
  "#define BgInverseTint70 [UIColor colorWithRed:0.157f green:0.137f blue:0.125f alpha:0.700f]",
  "#define BgNeutralBlack [UIColor colorWithRed:0.000f green:0.000f blue:0.000f alpha:1.000f]",
  "#define BgNeutralWhite [UIColor colorWithRed:1.000f green:1.000f blue:1.000f alpha:1.000f]",
  "#define BgOverlayPrimary [UIColor colorWithRed:0.000f green:0.000f blue:0.000f alpha:0.200f]",
  "#define BgOverlayQuarternary [UIColor colorWithRed:0.000f green:0.000f blue:0.000f alpha:0.020f]",
  "#define BgOverlaySecondary [UIColor colorWithRed:0.157f green:0.137f blue:0.125f alpha:0.100f]",
  "#define BgOverlayTertiarty [UIColor colorWithRed:1.000f green:1.000f blue:1.000f alpha:1.000f]",
  "#define BgPlaceholderDefault [UIColor colorWithRed:0.965f green:0.961f blue:0.957f alpha:1.000f]",
  "#define BgPrimaryActive [UIColor colorWithRed:0.882f green:0.859f blue:0.839f alpha:1.000f]",
  "#define BgPrimaryActiveAlt [UIColor colorWithRed:0.373f green:0.345f blue:0.329f alpha:1.000f]",
  "#define BgPrimaryDefault [UIColor colorWithRed:0.965f green:0.961f blue:0.957f alpha:1.000f]",
  "#define BgPrimaryHover [UIColor colorWithRed:0.941f green:0.925f blue:0.918f alpha:1.000f]",
  "#define BgPrimaryTint50 [UIColor colorWithRed:0.965f green:0.961f blue:0.957f alpha:0.500f]",
  "#define BgPrimaryTint90 [UIColor colorWithRed:0.965f green:0.961f blue:0.957f alpha:0.900f]",
  "#define BgQuaternaryActive [UIColor colorWithRed:0.800f green:0.761f blue:0.722f alpha:1.000f]",
  "#define BgQuaternaryDefault [UIColor colorWithRed:0.882f green:0.859f blue:0.839f alpha:1.000f]",
  "#define BgQuaternaryHover [UIColor colorWithRed:0.800f green:0.761f blue:0.722f alpha:1.000f]",
  "#define BgSecondaryActive [UIColor colorWithRed:0.941f green:0.925f blue:0.918f alpha:1.000f]",
  "#define BgSecondaryDefault [UIColor colorWithRed:1.000f green:1.000f blue:1.000f alpha:1.000f]",
  "#define BgSecondaryHover [UIColor colorWithRed:0.941f green:0.925f blue:0.918f alpha:0.500f]",
  "#define BgTertiaryActive [UIColor colorWithRed:0.882f green:0.859f blue:0.839f alpha:1.000f]",
  "#define BgTertiaryDefault [UIColor colorWithRed:0.941f green:0.925f blue:0.918f alpha:1.000f]",
  "#define BgTertiaryHover [UIColor colorWithRed:0.882f green:0.859f blue:0.839f alpha:1.000f]",
  "#define BorderDisabled [UIColor colorWithRed:0.882f green:0.859f blue:0.839f alpha:1.000f]",
  "#define BorderDisabledAlt [UIColor colorWithRed:0.800f green:0.761f blue:0.722f alpha:1.000f]",
  "#define BorderFade [UIColor colorWithRed:0.157f green:0.137f blue:0.125f alpha:0.100f]",
  "#define BorderFeedbackAlertPrimary [UIColor colorWithRed:0.431f green:0.471f blue:0.706f alpha:1.000f]",
  "#define BorderFeedbackAlertSecondary [UIColor colorWithRed:0.569f green:0.071f blue:0.071f alpha:1.000f]",
  "#define BorderFeedbackInfoPrimary [UIColor colorWithRed:0.871f green:0.922f blue:0.988f alpha:1.000f]",
  "#define BorderFeedbackInfoSecondary [UIColor colorWithRed:0.106f green:0.267f blue:0.494f alpha:1.000f]",
  "#define BorderFeedbackSuccessPrimary [UIColor colorWithRed:0.835f green:0.965f blue:0.882f alpha:1.000f]",
  "#define BorderFeedbackSuccessSecondary [UIColor colorWithRed:0.196f green:0.424f blue:0.267f alpha:1.000f]",
  "#define BorderFeedbackWarningPrimary [UIColor colorWithRed:0.992f green:0.957f blue:0.769f alpha:1.000f]",
  "#define BorderFeedbackWarningSecondary [UIColor colorWithRed:0.467f green:0.384f blue:0.051f alpha:1.000f]",
  "#define BorderPlaceholder [UIColor colorWithRed:0.576f green:0.549f blue:0.522f alpha:1.000f]",
  "#define BorderPrimary [UIColor colorWithRed:0.882f green:0.859f blue:0.839f alpha:1.000f]",
  "#define BorderPrimaryActive [UIColor colorWithRed:0.800f green:0.761f blue:0.722f alpha:1.000f]",
  "#define BorderPrimaryActiveAlt [UIColor colorWithRed:0.157f green:0.137f blue:0.125f alpha:1.000f]",
  "#define BorderSecondary [UIColor colorWithRed:0.800f green:0.761f blue:0.722f alpha:1.000f]",
  "#define BorderSecondaryActive [UIColor colorWithRed:0.576f green:0.549f blue:0.522f alpha:1.000f]",
  "#define EffectsShadowsLg [UIColor colorWithRed:0.122f green:0.106f blue:0.098f alpha:0.200f]",
  "#define EffectsShadowsMd [UIColor colorWithRed:0.122f green:0.106f blue:0.098f alpha:0.100f]",
  "#define EffectsShadowsSm [UIColor colorWithRed:0.122f green:0.106f blue:0.098f alpha:0.050f]",
  "#define EffectsShadowsXl [UIColor colorWithRed:0.122f green:0.106f blue:0.098f alpha:0.500f]",
  "#define FgBrandDefault [UIColor colorWithRed:0.059f green:0.118f blue:0.502f alpha:1.000f]",
  "#define FgBrandGradientFrom [UIColor colorWithRed:0.251f green:0.298f blue:0.612f alpha:1.000f]",
  "#define FgBrandGradientTo [UIColor colorWithRed:0.059f green:0.118f blue:0.502f alpha:1.000f]",
  "#define FgDisabledDefault [UIColor colorWithRed:0.800f green:0.761f blue:0.722f alpha:1.000f]",
  "#define FgFeedbackAlertPrimary [UIColor colorWithRed:0.569f green:0.071f blue:0.071f alpha:1.000f]",
  "#define FgFeedbackAlertSecondary [UIColor colorWithRed:0.988f green:0.812f blue:0.812f alpha:1.000f]",
  "#define FgFeedbackInfoSecondary [UIColor colorWithRed:0.871f green:0.922f blue:0.988f alpha:1.000f]",
  "#define FgFeedbackNfoPrimary [UIColor colorWithRed:0.106f green:0.267f blue:0.494f alpha:1.000f]",
  "#define FgFeedbackSuccessPrimary [UIColor colorWithRed:0.196f green:0.424f blue:0.267f alpha:1.000f]",
  "#define FgFeedbackSuccessSecondary [UIColor colorWithRed:0.639f green:0.922f blue:0.737f alpha:1.000f]",
  "#define FgFeedbackWarningPrimary [UIColor colorWithRed:0.467f green:0.384f blue:0.051f alpha:1.000f]",
  "#define FgFeedbackWarningSecondary [UIColor colorWithRed:0.984f green:0.898f blue:0.557f alpha:1.000f]",
  "#define FgInverseDefault [UIColor colorWithRed:1.000f green:1.000f blue:1.000f alpha:1.000f]",
  "#define FgNeutralBlack [UIColor colorWithRed:0.000f green:0.000f blue:0.000f alpha:1.000f]",
  "#define FgNeutralWhite [UIColor colorWithRed:1.000f green:1.000f blue:1.000f alpha:1.000f]",
  "#define FgPlaceholderDefault [UIColor colorWithRed:0.576f green:0.549f blue:0.522f alpha:1.000f]",
  "#define FgPrimaryDefault [UIColor colorWithRed:0.122f green:0.106f blue:0.098f alpha:1.000f]",
  "#define FgSecondaryDefault [UIColor colorWithRed:0.278f green:0.259f blue:0.243f alpha:1.000f]",
  "#define FgTertiaryDefault [UIColor colorWithRed:0.510f green:0.490f blue:0.471f alpha:1.000f]",
  "#define IconsPrimaryDefault [UIColor colorWithRed:0.059f green:0.118f blue:0.502f alpha:1.000f]",
  "#define IconsPrimaryDefaultFade [UIColor colorWithRed:0.059f green:0.118f blue:0.502f alpha:1.000f]",
  "#define IconsSecondaryDefaultFadeNew [UIColor colorWithRed:0.882f green:0.859f blue:0.839f alpha:1.000f]",
  "#define IconsSecondaryDefaultNew [UIColor colorWithRed:0.059f green:0.118f blue:0.502f alpha:1.000f]",
  "#define ColorsBrandAccent11002 [UIColor colorWithRed:0.753f green:0.925f blue:0.949f alpha:1.000f]",
  "#define ColorsBrandAccent12002 [UIColor colorWithRed:0.573f green:0.871f blue:0.910f alpha:1.000f]",
  "#define ColorsBrandAccent13002 [UIColor colorWithRed:0.408f green:0.820f blue:0.875f alpha:1.000f]",
  "#define ColorsBrandAccent14002 [UIColor colorWithRed:0.192f green:0.753f blue:0.827f alpha:1.000f]",
  "#define ColorsBrandAccent15002 [UIColor colorWithRed:0.133f green:0.569f blue:0.627f alpha:1.000f]",
  "#define ColorsBrandAccent2100 [UIColor colorWithRed:0.753f green:0.925f blue:0.949f alpha:1.000f]",
  "#define ColorsBrandAccent2200 [UIColor colorWithRed:0.573f green:0.871f blue:0.910f alpha:1.000f]",
  "#define ColorsBrandAccent2300 [UIColor colorWithRed:0.408f green:0.820f blue:0.875f alpha:1.000f]",
  "#define ColorsBrandAccent2400 [UIColor colorWithRed:0.192f green:0.753f blue:0.827f alpha:1.000f]",
  "#define ColorsBrandAccent2500 [UIColor colorWithRed:0.133f green:0.569f blue:0.627f alpha:1.000f]",
  "#define ColorsBrandGradientsGradientFrom [UIColor colorWithRed:0.251f green:0.298f blue:0.612f alpha:1.000f]",
  "#define ColorsBrandGradientsGradientTo [UIColor colorWithRed:0.059f green:0.118f blue:0.502f alpha:1.000f]",
  "#define ColorsBrandPrimary100 [UIColor colorWithRed:0.431f green:0.471f blue:0.706f alpha:1.000f]",
  "#define ColorsBrandPrimary200 [UIColor colorWithRed:0.251f green:0.298f blue:0.612f alpha:1.000f]",
  "#define ColorsBrandPrimary300 [UIColor colorWithRed:0.059f green:0.118f blue:0.502f alpha:1.000f]",
  "#define ColorsBrandPrimary400 [UIColor colorWithRed:0.047f green:0.098f blue:0.412f alpha:1.000f]",
  "#define ColorsBrandPrimary500 [UIColor colorWithRed:0.027f green:0.035f blue:0.294f alpha:1.000f]",
  "#define ColorsBrandPrimaryAlpha0 [UIColor colorWithRed:0.059f green:0.118f blue:0.502f alpha:0.000f]",
  "#define ColorsBrandPrimaryAlpha1 [UIColor colorWithRed:0.059f green:0.118f blue:0.502f alpha:0.010f]",
  "#define ColorsBrandPrimaryAlpha5 [UIColor colorWithRed:0.059f green:0.118f blue:0.502f alpha:0.050f]",
  "#define ColorsBrandPrimaryAlpha10 [UIColor colorWithRed:0.059f green:0.118f blue:0.502f alpha:0.100f]",
  "#define ColorsBrandPrimaryAlpha20 [UIColor colorWithRed:0.059f green:0.118f blue:0.502f alpha:0.200f]",
  "#define ColorsBrandPrimaryAlpha90 [UIColor colorWithRed:0.059f green:0.118f blue:0.502f alpha:0.900f]",
  "#define ColorsBrandSecondary100 [UIColor colorWithRed:0.753f green:0.925f blue:0.949f alpha:1.000f]",
  "#define ColorsBrandSecondary200 [UIColor colorWithRed:0.573f green:0.871f blue:0.910f alpha:1.000f]",
  "#define ColorsBrandSecondary300 [UIColor colorWithRed:0.408f green:0.820f blue:0.875f alpha:1.000f]",
  "#define ColorsBrandSecondary400 [UIColor colorWithRed:0.192f green:0.753f blue:0.827f alpha:1.000f]",
  "#define ColorsBrandSecondary500 [UIColor colorWithRed:0.133f green:0.569f blue:0.627f alpha:1.000f]",
  "#define ColorsNeutral50 [UIColor colorWithRed:0.965f green:0.961f blue:0.957f alpha:1.000f]",
  "#define ColorsNeutral100 [UIColor colorWithRed:0.941f green:0.925f blue:0.918f alpha:1.000f]",
  "#define ColorsNeutral200 [UIColor colorWithRed:0.882f green:0.859f blue:0.839f alpha:1.000f]",
  "#define ColorsNeutral300 [UIColor colorWithRed:0.800f green:0.761f blue:0.722f alpha:1.000f]",
  "#define ColorsNeutral400 [UIColor colorWithRed:0.576f green:0.549f blue:0.522f alpha:1.000f]",
  "#define ColorsNeutral500 [UIColor colorWithRed:0.510f green:0.490f blue:0.471f alpha:1.000f]",
  "#define ColorsNeutral600 [UIColor colorWithRed:0.373f green:0.345f blue:0.329f alpha:1.000f]",
  "#define ColorsNeutral700 [UIColor colorWithRed:0.278f green:0.259f blue:0.243f alpha:1.000f]",
  "#define ColorsNeutral800 [UIColor colorWithRed:0.216f green:0.196f blue:0.184f alpha:1.000f]",
  "#define ColorsNeutral900 [UIColor colorWithRed:0.157f green:0.137f blue:0.125f alpha:1.000f]",
  "#define ColorsNeutral950 [UIColor colorWithRed:0.122f green:0.106f blue:0.098f alpha:1.000f]",
  "#define ColorsNeutralAlpha505 [UIColor colorWithRed:0.965f green:0.961f blue:0.957f alpha:0.050f]",
  "#define ColorsNeutralAlpha5010 [UIColor colorWithRed:0.965f green:0.961f blue:0.957f alpha:0.100f]",
  "#define ColorsNeutralAlpha5020 [UIColor colorWithRed:0.965f green:0.961f blue:0.957f alpha:0.200f]",
  "#define ColorsNeutralAlpha5050 [UIColor colorWithRed:0.965f green:0.961f blue:0.957f alpha:0.500f]",
  "#define ColorsNeutralAlpha5090 [UIColor colorWithRed:0.965f green:0.961f blue:0.957f alpha:0.900f]",
  "#define ColorsNeutralAlpha10050 [UIColor colorWithRed:0.941f green:0.925f blue:0.918f alpha:0.500f]",
  "#define ColorsNeutralAlpha90010 [UIColor colorWithRed:0.157f green:0.137f blue:0.125f alpha:0.100f]",
  "#define ColorsNeutralAlpha90050 [UIColor colorWithRed:0.157f green:0.137f blue:0.125f alpha:0.500f]",
  "#define ColorsNeutralAlpha90070 [UIColor colorWithRed:0.157f green:0.137f blue:0.125f alpha:0.700f]",
  "#define ColorsNeutralAlpha90090 [UIColor colorWithRed:0.157f green:0.137f blue:0.125f alpha:0.900f]",
  "#define ColorsNeutralAlpha9505 [UIColor colorWithRed:0.122f green:0.106f blue:0.098f alpha:0.050f]",
  "#define ColorsNeutralAlpha95010 [UIColor colorWithRed:0.122f green:0.106f blue:0.098f alpha:0.100f]",
  "#define ColorsNeutralAlpha95020 [UIColor colorWithRed:0.122f green:0.106f blue:0.098f alpha:0.200f]",
  "#define ColorsNeutralAlpha95050 [UIColor colorWithRed:0.122f green:0.106f blue:0.098f alpha:0.500f]",
  "#define ColorsNeutralAlphaBlack2 [UIColor colorWithRed:0.000f green:0.000f blue:0.000f alpha:0.020f]",
  "#define ColorsNeutralAlphaBlack20 [UIColor colorWithRed:0.000f green:0.000f blue:0.000f alpha:0.200f]",
  "#define ColorsNeutralAlphaWhite2 [UIColor colorWithRed:1.000f green:1.000f blue:1.000f alpha:0.020f]",
  "#define ColorsNeutralAlphaWhite20 [UIColor colorWithRed:1.000f green:1.000f blue:1.000f alpha:0.200f]",
  "#define ColorsNeutralAlphaWhite70 [UIColor colorWithRed:1.000f green:1.000f blue:1.000f alpha:0.700f]",
  "#define ColorsNeutralBlack [UIColor colorWithRed:0.000f green:0.000f blue:0.000f alpha:1.000f]",
  "#define ColorsNeutralWhite [UIColor colorWithRed:1.000f green:1.000f blue:1.000f alpha:1.000f]",
  "#define ColorsBlue50 [UIColor colorWithRed:0.941f green:0.965f blue:1.000f alpha:1.000f]",
  "#define ColorsBlue100 [UIColor colorWithRed:0.871f green:0.922f blue:0.988f alpha:1.000f]",
  "#define ColorsBlue200 [UIColor colorWithRed:0.541f green:0.714f blue:0.957f alpha:1.000f]",
  "#define ColorsBlue300 [UIColor colorWithRed:0.278f green:0.545f blue:0.922f alpha:1.000f]",
  "#define ColorsBlue400 [UIColor colorWithRed:0.133f green:0.396f blue:0.765f alpha:1.000f]",
  "#define ColorsBlue500 [UIColor colorWithRed:0.106f green:0.267f blue:0.494f alpha:1.000f]",
  "#define ColorsBlueAlpha20090 [UIColor colorWithRed:0.541f green:0.714f blue:0.957f alpha:0.900f]",
  "#define ColorsBlueAlpha30030 [UIColor colorWithRed:0.278f green:0.545f blue:0.922f alpha:0.300f]",
  "#define ColorsGreen50 [UIColor colorWithRed:0.953f green:0.988f blue:0.965f alpha:1.000f]",
  "#define ColorsGreen100 [UIColor colorWithRed:0.835f green:0.965f blue:0.882f alpha:1.000f]",
  "#define ColorsGreen200 [UIColor colorWithRed:0.639f green:0.922f blue:0.737f alpha:1.000f]",
  "#define ColorsGreen300 [UIColor colorWithRed:0.325f green:0.835f blue:0.502f alpha:1.000f]",
  "#define ColorsGreen400 [UIColor colorWithRed:0.255f green:0.608f blue:0.373f alpha:1.000f]",
  "#define ColorsGreen500 [UIColor colorWithRed:0.196f green:0.424f blue:0.267f alpha:1.000f]",
  "#define ColorsGreenAlpha20080 [UIColor colorWithRed:0.639f green:0.922f blue:0.737f alpha:0.800f]",
  "#define ColorsGreenAlpha30030 [UIColor colorWithRed:0.325f green:0.835f blue:0.502f alpha:0.300f]",
  "#define ColorsGreenAlpha30050 [UIColor colorWithRed:0.325f green:0.835f blue:0.502f alpha:0.500f]",
  "#define ColorsRed50 [UIColor colorWithRed:0.996f green:0.906f blue:0.906f alpha:1.000f]",
  "#define ColorsRed100 [UIColor colorWithRed:0.988f green:0.812f blue:0.812f alpha:1.000f]",
  "#define ColorsRed200 [UIColor colorWithRed:0.969f green:0.529f blue:0.529f alpha:1.000f]",
  "#define ColorsRed300 [UIColor colorWithRed:0.953f green:0.286f blue:0.286f alpha:1.000f]",
  "#define ColorsRed400 [UIColor colorWithRed:0.769f green:0.071f blue:0.071f alpha:1.000f]",
  "#define ColorsRed500 [UIColor colorWithRed:0.569f green:0.071f blue:0.071f alpha:1.000f]",
  "#define ColorsRedAlpha20090 [UIColor colorWithRed:0.969f green:0.529f blue:0.529f alpha:0.900f]",
  "#define ColorsRedAlpha30030 [UIColor colorWithRed:0.953f green:0.286f blue:0.286f alpha:0.300f]",
  "#define ColorsYellow50 [UIColor colorWithRed:1.000f green:0.984f blue:0.922f alpha:1.000f]",
  "#define ColorsYellow100 [UIColor colorWithRed:0.992f green:0.957f blue:0.769f alpha:1.000f]",
  "#define ColorsYellow200 [UIColor colorWithRed:0.984f green:0.898f blue:0.557f alpha:1.000f]",
  "#define ColorsYellow300 [UIColor colorWithRed:0.973f green:0.827f blue:0.188f alpha:1.000f]",
  "#define ColorsYellow400 [UIColor colorWithRed:0.820f green:0.678f blue:0.039f alpha:1.000f]",
  "#define ColorsYellow500 [UIColor colorWithRed:0.467f green:0.384f blue:0.051f alpha:1.000f]",
  "#define ColorsYellowAlpha20090 [UIColor colorWithRed:0.984f green:0.898f blue:0.557f alpha:0.900f]",
  "#define ColorsYellowAlpha30030 [UIColor colorWithRed:0.973f green:0.827f blue:0.188f alpha:0.300f]",
  "#define ComponentsButtonCustomBg [UIColor colorWithRed:1.000f green:1.000f blue:1.000f alpha:1.000f]",
  "#define ComponentsButtonCustomBgHover [UIColor colorWithRed:1.000f green:1.000f blue:1.000f alpha:1.000f]",
  "#define ComponentsButtonCustomFg [UIColor colorWithRed:1.000f green:1.000f blue:1.000f alpha:1.000f]",
  "#define ComponentsButtonGhostBgHover [UIColor colorWithRed:1.000f green:1.000f blue:1.000f alpha:1.000f]",
  "#define ComponentsButtonGhostFg [UIColor colorWithRed:1.000f green:1.000f blue:1.000f alpha:1.000f]",
  "#define ComponentsButtonGhostFgHover [UIColor colorWithRed:1.000f green:1.000f blue:1.000f alpha:1.000f]",
  "#define ComponentsButtonGradientBgHover1 [UIColor colorWithRed:0.059f green:0.118f blue:0.502f alpha:1.000f]",
  "#define ComponentsButtonGradientBgHover2 [UIColor colorWithRed:0.251f green:0.298f blue:0.612f alpha:1.000f]",
  "#define ComponentsButtonGradientBg1 [UIColor colorWithRed:0.251f green:0.298f blue:0.612f alpha:1.000f]",
  "#define ComponentsButtonGradientBg2 [UIColor colorWithRed:0.059f green:0.118f blue:0.502f alpha:1.000f]",
  "#define ComponentsButtonGradientFg [UIColor colorWithRed:1.000f green:1.000f blue:1.000f alpha:1.000f]",
  "#define ComponentsButtonGradientFgHover [UIColor colorWithRed:1.000f green:1.000f blue:1.000f alpha:1.000f]",
  "#define ComponentsButtonOutlinedBg [UIColor colorWithRed:1.000f green:1.000f blue:1.000f alpha:0.000f]",
  "#define ComponentsButtonOutlinedBgHover [UIColor colorWithRed:0.059f green:0.118f blue:0.502f alpha:1.000f]",
  "#define ComponentsButtonOutlinedBorder [UIColor colorWithRed:0.059f green:0.118f blue:0.502f alpha:1.000f]",
  "#define ComponentsButtonOutlinedFg [UIColor colorWithRed:0.059f green:0.118f blue:0.502f alpha:1.000f]",
  "#define ComponentsButtonOutlinedFgHover [UIColor colorWithRed:1.000f green:1.000f blue:1.000f alpha:1.000f]",
  "#define ComponentsIconsFeedbackAlert [UIColor colorWithRed:0.569f green:0.071f blue:0.071f alpha:1.000f]",
  "#define ComponentsIconsFeedbackInfo [UIColor colorWithRed:0.106f green:0.267f blue:0.494f alpha:1.000f]",
  "#define ComponentsIconsFeedbackSuccess [UIColor colorWithRed:0.196f green:0.424f blue:0.267f alpha:1.000f]",
  "#define ComponentsIconsFeedbackWarning [UIColor colorWithRed:0.467f green:0.384f blue:0.051f alpha:1.000f]",
  "#define ComponentsIconsPrimaryDarkmode [UIColor colorWithRed:0.882f green:0.859f blue:0.839f alpha:1.000f]",
  "#define ComponentsIconsPrimaryDarkmodeFade [UIColor colorWithRed:0.882f green:0.859f blue:0.839f alpha:1.000f]",
  "#define ComponentsIconsPrimaryDefault [UIColor colorWithRed:0.059f green:0.118f blue:0.502f alpha:1.000f]",
  "#define ComponentsIconsPrimaryDefaultFade [UIColor colorWithRed:0.059f green:0.118f blue:0.502f alpha:1.000f]",
  "#define ComponentsIconsSecondaryDarkmode [UIColor colorWithRed:0.882f green:0.859f blue:0.839f alpha:1.000f]",
  "#define ComponentsIconsSecondaryDarkmodeGradient [UIColor colorWithRed:0.882f green:0.859f blue:0.839f alpha:1.000f]",
  "#define ComponentsIconsSecondaryDefault [UIColor colorWithRed:0.059f green:0.118f blue:0.502f alpha:1.000f]",
  "#define ComponentsIconsSecondaryDefaultFade [UIColor colorWithRed:0.059f green:0.118f blue:0.502f alpha:1.000f]",
  "#define ComponentsOtherBgLogo [UIColor colorWithRed:1.000f green:1.000f blue:1.000f alpha:1.000f]",
  "#define ComponentsOtherBgNotification [UIColor colorWithRed:0.569f green:0.071f blue:0.071f alpha:1.000f]",
  "#define SettingsFontsFontFamily String value",
  "#define SettingsLogicButtonprimaryvariant String value",
  "#define SettingsRadiusButton 9999",
  "#define SettingsRadiusInput 9999",
  "#define SettingsRadiusLg 16",
  "#define SettingsRadiusMd 12",
  "#define SettingsRadiusSm 8",
  "#define SettingsRadiusXl 20",
  "#define SettingsRadiusXs 4",
  "#define SettingsRadiusXxl 24",
  "#define SettingsRadiusXxs 4",
  "#define NumbersBorderRadiusRadius0 0",
  "#define NumbersBorderRadiusRadius10 10",
  "#define NumbersBorderRadiusRadius12 12",
  "#define NumbersBorderRadiusRadius16 16",
  "#define NumbersBorderRadiusRadius2 8",
  "#define NumbersBorderRadiusRadius20 20",
  "#define NumbersBorderRadiusRadius24 24",
  "#define NumbersBorderRadiusRadius4 4",
  "#define NumbersBorderRadiusRadius6 6",
  "#define NumbersBorderRadiusRadius8 8",
  "#define NumbersBorderRadiusRadiusFull 9999",
  "#define NumbersScreenSizeWidth2xl 1024",
  "#define NumbersScreenSizeWidth3xl 1280",
  "#define NumbersScreenSizeWidth4xl 1440",
  "#define NumbersScreenSizeWidth5xl 1600",
  "#define NumbersScreenSizeWidth6xl 1920",
  "#define NumbersScreenSizeWidthLg 640",
  "#define NumbersScreenSizeWidthMd 560",
  "#define NumbersScreenSizeWidthSm 480",
  "#define NumbersScreenSizeWidthXl 768",
  "#define NumbersScreenSizeWidthXs 384",
  "#define NumbersScreenSizeWidthXxs 320",
  "#define NumbersSpacingSpacing0 0",
  "#define NumbersSpacingSpacing12 12",
  "#define NumbersSpacingSpacing128 128",
  "#define NumbersSpacingSpacing16 16",
  "#define NumbersSpacingSpacing160 160",
  "#define NumbersSpacingSpacing2 2",
  "#define NumbersSpacingSpacing20 20",
  "#define NumbersSpacingSpacing24 24",
  "#define NumbersSpacingSpacing32 32",
  "#define NumbersSpacingSpacing4 4",
  "#define NumbersSpacingSpacing40 40",
  "#define NumbersSpacingSpacing48 48",
  "#define NumbersSpacingSpacing6 6",
  "#define NumbersSpacingSpacing64 64",
  "#define NumbersSpacingSpacing8 8",
  "#define NumbersSpacingSpacing80 80",
  "#define NumbersSpacingSpacing96 96",
  "#define TypographyFontSizeBody1 16",
  "#define TypographyFontSizeBody2 14",
  "#define TypographyFontSizeBody3 12",
  "#define TypographyFontSizeButtonLg 18",
  "#define TypographyFontSizeButtonMd 16",
  "#define TypographyFontSizeButtonSm 14",
  "#define TypographyFontSizeCaption 10",
  "#define TypographyFontSizeDisplay 74",
  "#define TypographyFontSizeHeading1 48",
  "#define TypographyFontSizeHeading2 32",
  "#define TypographyFontSizeHeadling3 24",
  "#define TypographyFontSizeHeadling4 20",
  "#define TypographyFontSizeHeadling5 18",
  "#define TypographyFontSizeOverline 10",
  "#define TypographyFontWeightBold 700",
  "#define TypographyFontWeightLight 300",
  "#define TypographyFontWeightRegular 400",
  "#define TypographyFontWeightSemibold 600",
  "#define TypographyLetterSpacingNormal 0",
  "#define TypographyLetterSpacingTight -0.25",
  "#define TypographyLetterSpacingTighter -0.5",
  "#define TypographyLetterSpacingTightest -1.5",
  "#define TypographyLetterSpacingWide 0.25",
  "#define TypographyLetterSpacingWider 0.5",
  "#define TypographyLetterSpacingWidest 1"
]

/-! ## Reading a line

A line is read the way the preprocessor reads it: `#define`, one space, an
identifier, and, for an object-like macro, a space followed by the replacement
text.  An identifier directly followed by `(` would be a function-like macro
and is not accepted. -/

/-- One object-like macro definition: its identifier and its replacement text. -/
structure Define where
  name : String
  value : String
deriving DecidableEq, Repr

/-- Characters an identifier may contain: ASCII letters, digits, underscore. -/
def isIdentChar (c : Char) : Bool := c.isAlphanum || c == '_'

/-- Remove the characters `p` from the front of `cs`; `none` when `cs` does not
start with them. -/
def dropFront : List Char → List Char → Option (List Char)
  | [], cs => some cs
  | _ :: _, [] => none
  | p :: ps, c :: cs => if p = c then dropFront ps cs else none

/-- Whether `cs` starts with the characters `p`. -/
def startsWith (p : String) (cs : List Char) : Bool := (dropFront p.data cs).isSome

/-- Read a line as `#define <identifier> <value>`. -/
def parseDefine (line : String) : Option Define :=
  match dropFront "#define ".data line.data with
  | none => none
  | some rest =>
    match rest.takeWhile isIdentChar, rest.dropWhile isIdentChar with
    | c :: cs, ' ' :: v :: vs =>
      if c.isDigit then none else some ⟨String.mk (c :: cs), String.mk (v :: vs)⟩
    | _, _ => none

/-- The macro definitions of the header, in file order. -/
def defines : List Define := tokens_h.filterMap parseDefine

/-- The identifiers defined by the header, in file order. -/
def names : List String := defines.map Define.name

/-- The replacement text of the first definition of `n`, if there is one. -/
def lookup (n : String) : Option String :=
  (defines.find? fun d => d.name = n).map Define.value

/-- A line with nothing but white space on it. -/
def isBlank (line : String) : Bool := line.data.all Char.isWhitespace

/-- A `//` comment line (one that does not run on into the next line). -/
def isComment (line : String) : Bool :=
  startsWith "//" line.data && line.data.getLast? != some (Char.ofNat 92)

/-- One of the two `#import` lines of the header. -/
def isImport (line : String) : Bool :=
  line = "#import <Foundation/Foundation.h>" || line = "#import <UIKit/UIKit.h>"

/-! ## Reading a value

The replacement texts of the header come in three shapes: a colour
constructor, a decimal number, and the text `String value`. -/

/-- The four channel texts of a colour constructor, as written. -/
structure Colour where
  red : String
  green : String
  blue : String
  alpha : String
deriving DecidableEq, Repr

/-- The channel texts in the order red, green, blue, alpha. -/
def Colour.channels (c : Colour) : List String := [c.red, c.green, c.blue, c.alpha]

/-- Read `[UIColor colorWithRed:R green:G blue:B alpha:A]`.  The channel
texts `R`, `G`, `B` and `A` are taken as they stand (anything up to the next
space, or up to the closing bracket); nothing is assumed about their form. -/
def parseColour (value : String) : Option Colour :=
  match dropFront "[UIColor colorWithRed:".data value.data with
  | none => none
  | some s1 =>
    match dropFront " green:".data (s1.dropWhile (· != ' ')) with
    | none => none
    | some s2 =>
      match dropFront " blue:".data (s2.dropWhile (· != ' ')) with
      | none => none
      | some s3 =>
        match dropFront " alpha:".data (s3.dropWhile (· != ' ')) with
        | none => none
        | some s4 =>
          if s4.dropWhile (· != ']') = [']'] then
            some ⟨String.mk (s1.takeWhile (· != ' ')), String.mk (s2.takeWhile (· != ' ')),
              String.mk (s3.takeWhile (· != ' ')), String.mk (s4.takeWhile (· != ']'))⟩
          else none

/-- A define whose replacement text opens a `UIColor` message. -/
def Define.isColour (d : Define) : Bool := startsWith "[UIColor" d.value.data

/-- A decimal number as written: sign, the digits read as one natural number,
and how many of those digits stand after the decimal point.  Its value is
`± mantissa / 10 ^ scale`. -/
structure Decimal where
  negative : Bool
  mantissa : Nat
  scale : Nat
deriving DecidableEq, Repr

/-- Numerator of the value over the denominator `10 ^ scale`. -/
def Decimal.num (d : Decimal) : Int := if d.negative then -(d.mantissa : Int) else d.mantissa

/-- Denominator of the value. -/
def Decimal.den (d : Decimal) : Nat := 10 ^ d.scale

/-- The exact value of the decimal. -/
def Decimal.toRat (d : Decimal) : ℚ := (d.num : ℚ) / (d.den : ℚ)

/-- Whether the value is a whole number. -/
def Decimal.isWhole (d : Decimal) : Bool := d.mantissa % d.den == 0

/-- The number written by a run of decimal digits. -/
def digitsValue (ds : List Char) : Nat := ds.foldl (fun n c => 10 * n + (c.toNat - 48)) 0

/-- Read `digits` or `digits.digits`: the mantissa and the scale. -/
def readUnsigned (cs : List Char) : Option (Nat × Nat) :=
  match cs.takeWhile Char.isDigit, cs.dropWhile Char.isDigit with
  | [], _ => none
  | ip, [] => some (digitsValue ip, 0)
  | ip, '.' :: f :: fs =>
    if (f :: fs).all Char.isDigit then some (digitsValue (ip ++ f :: fs), (f :: fs).length)
    else none
  | _, _ => none

/-- Read an optionally signed decimal: `4`, `9999`, `-0.25`, `1.000`. -/
def readDecimal (cs : List Char) : Option Decimal :=
  match cs with
  | '-' :: rest => (readUnsigned rest).map fun p => ⟨true, p.1, p.2⟩
  | _ => (readUnsigned cs).map fun p => ⟨false, p.1, p.2⟩

/-- Read a float literal: a decimal with a fractional part and the suffix `f`. -/
def readFloat (cs : List Char) : Option Decimal :=
  if cs.getLast? = some 'f' then
    match readDecimal cs.dropLast with
    | some d => if d.scale = 0 then none else some d
    | none => none
  else none

/-- Read a numeric literal: a decimal, or a float literal with its suffix. -/
def readNumber (value : String) : Option Decimal :=
  match readDecimal value.data with
  | some d => some d
  | none => readFloat value.data

/-- A channel written as one digit, a point, three digits and `f`. -/
def isFixed3 (channel : String) : Bool :=
  match channel.data with
  | [d0, '.', d1, d2, d3, 'f'] => d0.isDigit && d1.isDigit && d2.isDigit && d3.isDigit
  | _ => false

/-- An integer literal with nothing after it: an optional minus sign and digits
only, so no decimal point, no fractional zeros and no suffix. -/
def isBareInteger (value : String) : Bool :=
  match value.data with
  | '-' :: c :: cs => (c :: cs).all Char.isDigit
  | c :: cs => (c :: cs).all Char.isDigit
  | [] => false

/-- Shape 1: a colour constructor whose four channels are float literals. -/
def isColourValue (value : String) : Bool :=
  match parseColour value with
  | some c => c.channels.all fun ch => (readFloat ch.data).isSome
  | none => false

/-- Shape 2: a numeric literal. -/
def isNumberValue (value : String) : Bool := (readNumber value).isSome

/-- Shape 3: the string placeholder. -/
def isPlaceholderValue (value : String) : Bool := value = "String value"

/-- How many of the three shapes a replacement text has. -/
def shapeCount (value : String) : Nat :=
  (if isColourValue value then 1 else 0) + (if isNumberValue value then 1 else 0)
    + (if isPlaceholderValue value then 1 else 0)

/-! ## Identifier tokens of a replacement text -/

/-- State of the scanner: between tokens, inside an identifier (its characters
so far, last first), or inside a preprocessing number. -/
inductive Lex where
  | idle
  | ident (acc : List Char)
  | number

/-- The identifier tokens of a text, left to right.  A preprocessing number
(`0.408f`, `9999`) swallows the letters that follow its digits, so the suffix
`f` of a float literal is not an identifier. -/
def scan : Lex → List Char → List String
  | .idle, [] => []
  | .number, [] => []
  | .ident acc, [] => [String.mk acc.reverse]
  | .idle, c :: cs =>
    if c.isDigit then scan .number cs
    else if isIdentChar c then scan (.ident [c]) cs
    else scan .idle cs
  | .number, c :: cs =>
    if isIdentChar c || c == '.' then scan .number cs else scan .idle cs
  | .ident acc, c :: cs =>
    if isIdentChar c then scan (.ident (c :: acc)) cs
    else String.mk acc.reverse :: scan .idle cs

/-- The identifier tokens of a replacement text. -/
def identTokens (value : String) : List String := scan .idle value.data

/-- A number that stands for a string: its characters as base-256 digits. -/
def code (s : String) : Nat := s.data.foldl (fun n c => 256 * n + c.toNat) 0

/-! ## Checks over the whole header

Each check is a Boolean function that is run once over the lines or the
definitions of the header. -/

/-- A line of one of the four kinds the header is made of, with a value of
exactly one shape when it is a definition. -/
def lineOk (line : String) : Bool :=
  isBlank line || isComment line || isImport line ||
    match parseDefine line with
    | some d => shapeCount d.value == 1
    | none => false

/-- For a colour define: it reads as a colour and every channel has the
fixed form. -/
def fixed3Ok (d : Define) : Bool :=
  !d.isColour ||
    match parseColour d.value with
    | some c => c.channels.all isFixed3
    | none => false

/-- Whether `x` differs from every number of the list. -/
def fresh (x : Nat) : List Nat → Bool
  | [] => true
  | y :: ys => if Nat.beq x y then false else fresh x ys

/-- Whether the numbers of the list are pairwise different. -/
def distinct : List Nat → Bool
  | [] => true
  | x :: xs => if fresh x xs then distinct xs else false

/-- The identifiers that occur in the replacement texts of the header. -/
def valueWords : List String :=
  ["UIColor", "colorWithRed", "green", "blue", "alpha", "String", "value"]

/-- Every identifier token of the replacement text is one of `valueWords`. -/
def wordsOk (d : Define) : Bool := (identTokens d.value).all fun t => valueWords.contains t

/-- A channel that reads as a float literal, not negative and at most one. -/
def channelInUnit (channel : String) : Bool :=
  match readFloat channel.data with
  | some x => !x.negative && decide (x.mantissa ≤ x.den)
  | none => false

/-- For a colour define: it reads as a colour and every channel is in range. -/
def unitOk (d : Define) : Bool :=
  !d.isColour ||
    match parseColour d.value with
    | some c => c.channels.all channelInUnit
    | none => false

/-- A numeric define with a whole value is written as a bare integer. -/
def wholeOk (d : Define) : Bool :=
  match readNumber d.value with
  | some x => !x.isWhole || isBareInteger d.value
  | none => true

/-- An identifier that starts with an upper-case ASCII letter and has only
ASCII letters and digits. -/
def isPascalIdent (n : String) : Bool :=
  match n.data with
  | c :: cs => c.isUpper && cs.all Char.isAlphanum
  | [] => false

/-- The double quote character. -/
def quote : Char := Char.ofNat 34

/-- A text that begins and ends with a string-literal quote: a C string
literal, or an Objective-C one with `@` in front. -/
def isQuoted (value : String) : Bool :=
  match value.data with
  | '@' :: q :: rest => q == quote && rest.getLast? == some quote
  | q :: rest => q == quote && rest.getLast? == some quote
  | [] => false

/-- A define named as a letter-spacing token. -/
def Define.isLetterSpacing (d : Define) : Bool :=
  startsWith "TypographyLetterSpacing" d.name.data

/-- A non-negative integer literal: digits only, at least one. -/
def isNatLiteral (value : String) : Bool :=
  match value.data with
  | c :: cs => (c :: cs).all Char.isDigit
  | [] => false

/-- A numeric define outside letter-spacing is a non-negative integer literal
with a whole, unsigned value. -/
def signedOk (d : Define) : Bool :=
  match readNumber d.value with
  | some x => d.isLetterSpacing || (isNatLiteral d.value && !x.negative && x.isWhole)
  | none => true

/-- The step a scale token is named after: what follows
`NumbersBorderRadiusRadius` or `NumbersSpacingSpacing` in the identifier, when
that is a decimal number. -/
def scaleStep (name : String) : Option String :=
  match dropFront "NumbersBorderRadiusRadius".data name.data with
  | some rest => if isNatLiteral (String.mk rest) then some (String.mk rest) else none
  | none =>
    match dropFront "NumbersSpacingSpacing".data name.data with
    | some rest => if isNatLiteral (String.mk rest) then some (String.mk rest) else none
    | none => none

/-- A scale token other than `NumbersBorderRadiusRadius2` is defined as the
step it is named after. -/
def scaleOk (d : Define) : Bool :=
  match scaleStep d.name with
  | some n => d.name == "NumbersBorderRadiusRadius2" || d.value == n
  | none => true

/-- A palette define: one whose identifier starts with `Colors`. -/
def Define.isPalette (d : Define) : Bool := startsWith "Colors" d.name.data

/-- The palette defines of the header, in file order. -/
def palette : List Define := defines.filter Define.isPalette

/-- The first define of the list whose replacement text has the code `k`. -/
def findByCode (k : Nat) : List Define → Option Define
  | [] => none
  | p :: ps => if Nat.beq (code p.value) k then some p else findByCode k ps

/-- A colour define outside the palette, other than
`ComponentsButtonOutlinedBg`, has the replacement text of a palette define. -/
def paletteOk (d : Define) : Bool :=
  !d.isColour || d.isPalette || d.name == "ComponentsButtonOutlinedBg" ||
    match findByCode (code d.value) palette with
    | some p => p.value == d.value
    | none => false

/-! ## Lemmas shared by the checks -/

/-- A number that passes `fresh` is not in the list. -/
theorem fresh_not_mem {x : Nat} : ∀ {l : List Nat}, fresh x l = true → x ∉ l
  | [], _ => by simp
  | y :: ys, h => by
    unfold fresh at h
    split at h
    · exact absurd h (by simp)
    · rename_i hne
      have hxy : x ≠ y := fun e => hne (by simp [e])
      simp only [List.mem_cons, not_or]
      exact ⟨hxy, fresh_not_mem h⟩

/-- A list that passes `distinct` has no duplicate. -/
theorem distinct_nodup : ∀ {l : List Nat}, distinct l = true → l.Nodup
  | [], _ => List.nodup_nil
  | x :: xs, h => by
    unfold distinct at h
    split at h
    · rename_i hf
      exact List.nodup_cons.mpr ⟨fresh_not_mem hf, distinct_nodup h⟩
    · exact absurd h (by simp)

/-- The header has 284 defines, 209 of them colours. -/
theorem defines_count :
    defines.length = 284 ∧ (defines.filter Define.isColour).length = 209 := by decide!

/-- Every line of the header passes `lineOk`. -/
theorem all_lines_ok : tokens_h.all lineOk = true := by decide!

/-- Every define passes `fixed3Ok`. -/
theorem all_fixed3_ok : defines.all fixed3Ok = true := by decide!

/-- The codes of the identifiers are pairwise different. -/
theorem codes_distinct : distinct (names.map code) = true := by decide!

/-- Every define passes `wordsOk`. -/
theorem all_words_ok : defines.all wordsOk = true := by decide!

/-- None of `valueWords` is a defined identifier. -/
theorem words_not_names : valueWords.all (fun w => !names.contains w) = true := by decide!

/-- Every define passes `unitOk`. -/
theorem all_unit_ok : defines.all unitOk = true := by decide!

/-- Every define passes `wholeOk`. -/
theorem all_whole_ok : defines.all wholeOk = true := by decide!

/-- Every identifier passes `isPascalIdent`. -/
theorem all_pascal_ok : names.all isPascalIdent = true := by decide!

/-- A decimal that is not negative and whose mantissa is at most its
denominator has a value between 0 and 1. -/
theorem Decimal.toRat_unit (x : Decimal) (hneg : x.negative = false)
    (hle : x.mantissa ≤ x.den) : 0 ≤ x.toRat ∧ x.toRat ≤ 1 := by
  have hden : (0 : ℚ) < (x.den : ℚ) := by
    unfold Decimal.den
    positivity
  have hnum : (x.num : ℚ) = (x.mantissa : ℚ) := by
    unfold Decimal.num
    simp [hneg]
  unfold Decimal.toRat
  rw [hnum]
  constructor
  · positivity
  · rw [div_le_one hden]
    exact_mod_cast hle

/-- Every define passes `signedOk`. -/
theorem all_signed_ok : defines.all signedOk = true := by decide!

/-- Every define passes `scaleOk`. -/
theorem all_scale_ok : defines.all scaleOk = true := by decide!

/-- Every define passes `paletteOk`. -/
theorem all_palette_ok : defines.all paletteOk = true := by decide!

/-- What `findByCode` returns is a member of the list. -/
theorem findByCode_mem {k : Nat} {p : Define} :
    ∀ {l : List Define}, findByCode k l = some p → p ∈ l
  | [], h => by simp [findByCode] at h
  | q :: qs, h => by
    unfold findByCode at h
    split at h
    · simp only [Option.some.injEq] at h
      simp [h]
    · exact List.mem_cons_of_mem q (findByCode_mem h)

/-! ## The claims -/

/-- C1: every line of the header is blank, a `//` comment, one of the two
`#import` lines, or an object-like `#define <identifier> <value>`, and the
value of every such define has exactly one of the three shapes (colour
constructor with four channel literals, numeric literal, `String value`). -/
theorem line_shapes : ∀ line ∈ tokens_h,
    isBlank line = true ∨ isComment line = true ∨ isImport line = true ∨
      ∃ d, parseDefine line = some d ∧ shapeCount d.value = 1 := by
  intro line hmem
  have h := List.all_eq_true.mp all_lines_ok line hmem
  unfold lineOk at h
  simp only [Bool.or_eq_true] at h
  rcases h with ((hb | hc) | hi) | hd
  · exact Or.inl hb
  · exact Or.inr (Or.inl hc)
  · exact Or.inr (Or.inr (Or.inl hi))
  · refine Or.inr (Or.inr (Or.inr ?_))
    cases hp : parseDefine line with
    | none => rw [hp] at hd; exact absurd hd (by simp)
    | some d => rw [hp] at hd; exact ⟨d, rfl, by simpa using hd⟩

/-- The line of `SettingsRadiusXs` is a define with a value of one shape. -/
theorem line_shapes_witness :
    "#define SettingsRadiusXs 4" ∈ tokens_h ∧
      (isBlank "#define SettingsRadiusXs 4" = true ∨
        isComment "#define SettingsRadiusXs 4" = true ∨
        isImport "#define SettingsRadiusXs 4" = true ∨
        ∃ d, parseDefine "#define SettingsRadiusXs 4" = some d ∧ shapeCount d.value = 1) :=
  ⟨by decide!, line_shapes _ (by decide!)⟩

/-- C2: for every colour define, each of the four channels red, green, blue
and alpha is written as exactly one digit, a decimal point, exactly three
digits and the suffix `f`. -/
theorem colour_channels_fixed3 : ∀ d ∈ defines, d.isColour = true →
    ∃ c, parseColour d.value = some c ∧ ∀ ch ∈ c.channels, isFixed3 ch = true := by
  intro d hmem hcol
  have h := List.all_eq_true.mp all_fixed3_ok d hmem
  unfold fixed3Ok at h
  rw [hcol] at h
  cases hp : parseColour d.value with
  | none => rw [hp] at h; exact absurd h (by simp)
  | some c =>
    rw [hp] at h
    exact ⟨c, rfl, fun ch hch => List.all_eq_true.mp (by simpa using h) ch hch⟩

/-- The channels of `BgDisabledSecondary` have the fixed form. -/
theorem colour_channels_fixed3_witness :
    (⟨"BgDisabledSecondary",
        "[UIColor colorWithRed:0.157f green:0.137f blue:0.125f alpha:0.100f]"⟩ : Define) ∈ defines ∧
      ∃ c, parseColour "[UIColor colorWithRed:0.157f green:0.137f blue:0.125f alpha:0.100f]" = some c ∧
        ∀ ch ∈ c.channels, isFixed3 ch = true :=
  ⟨by decide!,
    colour_channels_fixed3
      ⟨"BgDisabledSecondary", "[UIColor colorWithRed:0.157f green:0.137f blue:0.125f alpha:0.100f]"⟩
      (by decide!) (by decide!)⟩

/-- C3: the identifiers of all `#define` lines are pairwise distinct (string
equality is case-sensitive): no identifier is defined twice. -/
theorem names_nodup : names.Nodup :=
  List.Nodup.of_map code (distinct_nodup codes_distinct)

/-- C4: every emitted token is fully resolved: no replacement text contains,
as an identifier token, the name of a macro defined in the header. -/
theorem values_resolved : ∀ d ∈ defines, ∀ t ∈ identTokens d.value, t ∉ names := by
  intro d hmem t ht hname
  have hw := List.all_eq_true.mp all_words_ok d hmem
  unfold wordsOk at hw
  have hin : t ∈ valueWords := by
    have := List.all_eq_true.mp hw t ht
    simpa using this
  have hnot := List.all_eq_true.mp words_not_names t hin
  simp at hnot
  exact hnot hname

/-- The token `colorWithRed` in the value of `BgBrandPrimary` is not a
defined identifier. -/
theorem values_resolved_witness :
    (⟨"BgBrandPrimary",
        "[UIColor colorWithRed:0.059f green:0.118f blue:0.502f alpha:1.000f]"⟩ : Define) ∈ defines ∧
      "colorWithRed" ∈
        identTokens "[UIColor colorWithRed:0.059f green:0.118f blue:0.502f alpha:1.000f]" ∧
      "colorWithRed" ∉ names :=
  ⟨by decide!, by decide!,
    values_resolved
      ⟨"BgBrandPrimary", "[UIColor colorWithRed:0.059f green:0.118f blue:0.502f alpha:1.000f]"⟩
      (by decide!) "colorWithRed" (by decide!)⟩

/-- C5: for every colour define, each of the four channels red, green, blue
and alpha, read as an exact decimal, lies in the closed interval [0, 1]. -/
theorem colour_channels_unit : ∀ d ∈ defines, d.isColour = true →
    ∃ c, parseColour d.value = some c ∧
      ∀ ch ∈ c.channels, ∃ x, readFloat ch.data = some x ∧ 0 ≤ x.toRat ∧ x.toRat ≤ 1 := by
  intro d hmem hcol
  have h := List.all_eq_true.mp all_unit_ok d hmem
  unfold unitOk at h
  rw [hcol] at h
  cases hp : parseColour d.value with
  | none => rw [hp] at h; exact absurd h (by simp)
  | some c =>
    rw [hp] at h
    refine ⟨c, rfl, fun ch hch => ?_⟩
    have hc : channelInUnit ch = true := List.all_eq_true.mp (by simpa using h) ch hch
    unfold channelInUnit at hc
    cases hr : readFloat ch.data with
    | none => rw [hr] at hc; exact absurd hc (by simp)
    | some x =>
      rw [hr] at hc
      simp only [Bool.and_eq_true, Bool.not_eq_true', decide_eq_true_eq] at hc
      exact ⟨x, rfl, x.toRat_unit hc.1 hc.2⟩

/-- The channels of `BgOverlayQuarternary` lie between 0 and 1. -/
theorem colour_channels_unit_witness :
    (⟨"BgOverlayQuarternary",
        "[UIColor colorWithRed:0.000f green:0.000f blue:0.000f alpha:0.020f]"⟩ : Define) ∈ defines ∧
      ∃ c, parseColour "[UIColor colorWithRed:0.000f green:0.000f blue:0.000f alpha:0.020f]" = some c ∧
        ∀ ch ∈ c.channels, ∃ x, readFloat ch.data = some x ∧ 0 ≤ x.toRat ∧ x.toRat ≤ 1 :=
  ⟨by decide!,
    colour_channels_unit
      ⟨"BgOverlayQuarternary", "[UIColor colorWithRed:0.000f green:0.000f blue:0.000f alpha:0.020f]"⟩
      (by decide!) (by decide!)⟩

/-- C6: every numeric define whose value is a whole number is written as a
bare integer literal (no decimal point, no fractional zeros, no `f` suffix),
unlike a colour channel; in particular `SettingsRadiusXs` is defined as
exactly `4`. -/
theorem whole_numbers_bare :
    lookup "SettingsRadiusXs" = some "4" ∧
      ∀ d ∈ defines, ∀ x, readNumber d.value = some x → x.isWhole = true →
        isBareInteger d.value = true := by
  refine ⟨by decide!, ?_⟩
  intro d hmem x hread hwhole
  have h := List.all_eq_true.mp all_whole_ok d hmem
  unfold wholeOk at h
  rw [hread] at h
  simpa [hwhole] using h

/-- The value of `NumbersSpacingSpacing160` is whole and written bare. -/
theorem whole_numbers_bare_witness :
    (⟨"NumbersSpacingSpacing160", "160"⟩ : Define) ∈ defines ∧
      readNumber "160" = some ⟨false, 160, 0⟩ ∧ isBareInteger "160" = true :=
  ⟨by decide!, by decide!,
    whole_numbers_bare.2 ⟨"NumbersSpacingSpacing160", "160"⟩ (by decide!) ⟨false, 160, 0⟩
      (by decide!) (by decide!)⟩

/-- C7: the palette token `ColorsBrandPrimary300` and the semantic token
`BgBrandPrimary` are both defined as the same text
`[UIColor colorWithRed:0.059f green:0.118f blue:0.502f alpha:1.000f]`, whose
channels read as 59, 118, 502 and 1000 thousandths. -/
theorem brand_primary_identical :
    lookup "ColorsBrandPrimary300" =
        some "[UIColor colorWithRed:0.059f green:0.118f blue:0.502f alpha:1.000f]" ∧
      lookup "BgBrandPrimary" =
        some "[UIColor colorWithRed:0.059f green:0.118f blue:0.502f alpha:1.000f]" ∧
      (parseColour "[UIColor colorWithRed:0.059f green:0.118f blue:0.502f alpha:1.000f]").map
          (fun c => c.channels.map fun ch => readFloat ch.data) =
        some [some ⟨false, 59, 3⟩, some ⟨false, 118, 3⟩, some ⟨false, 502, 3⟩,
          some ⟨false, 1000, 3⟩] := by
  decide!

/-- C8, as the claim states it, fails: no define of the header has the
identifier `BorderOverlayTertiarty`. -/
theorem typo_keys_as_stated_fail :
    ¬ ("BorderOverlayTertiarty" ∈ names ∧ "FgFeedbackNfoPrimary" ∈ names ∧
        "TypographyFontSizeHeadling3" ∈ names) := by
  decide!

/-- C8, amended: the header has a define whose identifier is exactly
`BgOverlayTertiarty`, one whose identifier is exactly `FgFeedbackNfoPrimary`
and one whose identifier is exactly `TypographyFontSizeHeadling3`; it has none
named `BorderOverlayTertiarty`. -/
theorem typo_keys :
    "BgOverlayTertiarty" ∈ names ∧ "FgFeedbackNfoPrimary" ∈ names ∧
      "TypographyFontSizeHeadling3" ∈ names ∧ "BorderOverlayTertiarty" ∉ names := by
  decide!

/-- C9, as the claim states it, fails: the value of `SettingsFontsFontFamily`
is `String value`, which neither begins nor ends with a quote. -/
theorem string_values_not_quoted :
    lookup "SettingsFontsFontFamily" = some "String value" ∧
      isQuoted "String value" = false := by
  decide!

/-- C9, amended: the two string tokens `SettingsFontsFontFamily` and
`SettingsLogicButtonprimaryvariant` are both defined as the bare text
`String value`: it has no quote character in it and is the two identifier
tokens `String` and `value`. -/
theorem string_values_placeholder :
    lookup "SettingsFontsFontFamily" = some "String value" ∧
      lookup "SettingsLogicButtonprimaryvariant" = some "String value" ∧
      quote ∉ "String value".data ∧
      identTokens "String value" = ["String", "value"] := by
  decide!

/-- C10: every define identifier starts with an upper-case ASCII letter and
consists only of ASCII letters and digits (no underscore, dot, hyphen or
other separator). -/
theorem names_pascal : ∀ n ∈ names, isPascalIdent n = true :=
  fun n hmem => List.all_eq_true.mp all_pascal_ok n hmem

/-- The identifier `SettingsLogicButtonprimaryvariant` is a flat identifier. -/
theorem names_pascal_witness :
    "SettingsLogicButtonprimaryvariant" ∈ names ∧
      isPascalIdent "SettingsLogicButtonprimaryvariant" = true :=
  ⟨by decide!, names_pascal "SettingsLogicButtonprimaryvariant" (by decide!)⟩

/-- C11: among the numeric defines only letter-spacing is signed or
fractional: a numeric define whose identifier does not start with
`TypographyLetterSpacing` is a non-negative integer literal, and a numeric
define whose value is negative or not whole is a `TypographyLetterSpacing`
one. -/
theorem only_letter_spacing_signed : ∀ d ∈ defines, ∀ x, readNumber d.value = some x →
    (d.isLetterSpacing = false →
      isNatLiteral d.value = true ∧ x.negative = false ∧ x.isWhole = true) ∧
    (x.negative = true ∨ x.isWhole = false → d.isLetterSpacing = true) := by
  intro d hmem x hread
  have h := List.all_eq_true.mp all_signed_ok d hmem
  unfold signedOk at h
  rw [hread] at h
  simp only [Bool.or_eq_true, Bool.and_eq_true, Bool.not_eq_true'] at h
  constructor
  · intro hls
    rcases h with h | h
    · rw [hls] at h
      exact absurd h (by simp)
    · exact ⟨h.1.1, h.1.2, h.2⟩
  · intro hx
    rcases h with h | h
    · exact h
    · rcases hx with hx | hx
      · rw [h.1.2] at hx
        exact absurd hx (by simp)
      · rw [h.2] at hx
        exact absurd hx (by simp)

/-- The define `TypographyLetterSpacingTight`, with the negative fractional
value `-0.25`, is a letter-spacing one. -/
theorem only_letter_spacing_signed_witness :
    (⟨"TypographyLetterSpacingTight", "-0.25"⟩ : Define) ∈ defines ∧
      readNumber "-0.25" = some ⟨true, 25, 2⟩ ∧
      Define.isLetterSpacing ⟨"TypographyLetterSpacingTight", "-0.25"⟩ = true :=
  ⟨by decide!, by decide!,
    (only_letter_spacing_signed ⟨"TypographyLetterSpacingTight", "-0.25"⟩ (by decide!)
      ⟨true, 25, 2⟩ (by decide!)).2 (Or.inl rfl)⟩

/-- C12, at the failing define: `NumbersBorderRadiusRadius2` is named after
the step `2` and defined as `8`, while every other define named
`NumbersBorderRadiusRadius<N>` or `NumbersSpacingSpacing<N>` is defined as
exactly `N`. -/
theorem radius2_defined_as_8 :
    scaleStep "NumbersBorderRadiusRadius2" = some "2" ∧
      lookup "NumbersBorderRadiusRadius2" = some "8" ∧
      ∀ d ∈ defines, ∀ n, scaleStep d.name = some n →
        d.name ≠ "NumbersBorderRadiusRadius2" → d.value = n := by
  refine ⟨by decide!, by decide!, ?_⟩
  intro d hmem n hstep hne
  have h := List.all_eq_true.mp all_scale_ok d hmem
  unfold scaleOk at h
  rw [hstep] at h
  simpa [hne] using h

/-- C13, as the claim states it, fails: `ComponentsButtonOutlinedBg` is a
colour define outside the palette, and no palette define has its value (white
at alpha `0.000f`). -/
theorem outlined_bg_not_in_palette :
    (⟨"ComponentsButtonOutlinedBg",
        "[UIColor colorWithRed:1.000f green:1.000f blue:1.000f alpha:0.000f]"⟩ : Define) ∈ defines ∧
      Define.isColour ⟨"ComponentsButtonOutlinedBg",
        "[UIColor colorWithRed:1.000f green:1.000f blue:1.000f alpha:0.000f]"⟩ = true ∧
      Define.isPalette ⟨"ComponentsButtonOutlinedBg",
        "[UIColor colorWithRed:1.000f green:1.000f blue:1.000f alpha:0.000f]"⟩ = false ∧
      ¬ ∃ p ∈ defines, p.isPalette = true ∧
        p.value = "[UIColor colorWithRed:1.000f green:1.000f blue:1.000f alpha:0.000f]" := by
  decide!

/-- C13, amended: every colour define whose identifier does not start with
`Colors`, other than `ComponentsButtonOutlinedBg`, has the same replacement
text as some define whose identifier starts with `Colors`. -/
theorem semantic_colours_in_palette : ∀ d ∈ defines, d.isColour = true →
    d.isPalette = false → d.name ≠ "ComponentsButtonOutlinedBg" →
      ∃ p ∈ defines, p.isPalette = true ∧ p.value = d.value := by
  intro d hmem hcol hpal hne
  have h := List.all_eq_true.mp all_palette_ok d hmem
  unfold paletteOk at h
  simp only [hcol, hpal, hne, Bool.not_true, Bool.false_or, beq_iff_eq] at h
  cases hf : findByCode (code d.value) palette with
  | none => rw [hf] at h; exact absurd h (by simpa using hne)
  | some p =>
    rw [hf] at h
    have hp : p ∈ palette := findByCode_mem hf
    unfold palette at hp
    rw [List.mem_filter] at hp
    have hv : d.name = "ComponentsButtonOutlinedBg" ∨ p.value = d.value := by simpa using h
    exact ⟨p, hp.1, hp.2, hv.resolve_left hne⟩

/-- The semantic colour `BgInverseTint70` has the value of a palette define. -/
theorem semantic_colours_in_palette_witness :
    (⟨"BgInverseTint70",
        "[UIColor colorWithRed:0.157f green:0.137f blue:0.125f alpha:0.700f]"⟩ : Define) ∈ defines ∧
      ∃ p ∈ defines, p.isPalette = true ∧
        p.value = "[UIColor colorWithRed:0.157f green:0.137f blue:0.125f alpha:0.700f]" :=
  ⟨by decide!,
    semantic_colours_in_palette
      ⟨"BgInverseTint70", "[UIColor colorWithRed:0.157f green:0.137f blue:0.125f alpha:0.700f]"⟩
      (by decide!) (by decide!) (by decide!) (by decide!)⟩

end DesignTokens
